import Mathlib

/-!
Verification of the django-nginx-gunicorn application layer.

The repository consists of `app/views.py` (a function view `home` and a
class view `ImageListAPIView`) and `app/urls.py` (two routes).  The Image
model (`app/models.py`) and the serializer (`app/serializer.py`) are
imported by `views.py` but are not part of the provided source, so they are
modelled from the specification, as is the framework glue (template
rendering and the generic list-view dispatch).

The backing store is modelled as a list of `Image` records; each handler is
a pure function from the store and the request to a response paired with
the (possibly updated) store, which makes read-only behaviour an explicit
theorem rather than an assumption.
-/

/-- Modelled from the spec: the single persisted entity `Image`
(`app/models.py` is missing from the provided source).  The spec treats it
as an opaque record with at least an identifier. -/
structure Image where
  id : Nat
deriving DecidableEq, Repr

/-- The backing data store: the multiset of stored Image records,
represented as a list (order is the storage order returned by `all()`). -/
abbrev Store := List Image

/-- `Image.objects.all()` — the ORM query used by both handlers in
`app/views.py`: it returns every stored record. -/
def Image_objects_all (store : Store) : List Image :=
  store

/-- Modelled from the spec: the JSON representation of one Image record
(`app/serializer.py` is missing from the provided source; the spec calls
the serializer "the component mapping an Image record to its JSON
representation" with a fixed field mapping). -/
structure ImageJson where
  data : Image
deriving DecidableEq, Repr

/-- Modelled from the spec: `ImageSerializer` maps one Image record to one
JSON object. -/
def ImageSerializer_toJson (img : Image) : ImageJson :=
  ⟨img⟩

/-- The HTTP methods exercised by the claims (GET plus the write methods). -/
inductive Method where
  | GET
  | POST
  | PUT
  | PATCH
  | DELETE
deriving DecidableEq, Repr

/-- An incoming HTTP request: a method and a path. -/
structure Request where
  method : Method
  path : String
deriving DecidableEq, Repr

/-- A response produced by this application: an HTML render, a JSON list,
or a method-not-allowed rejection. -/
inductive Response where
  | html (status : Nat) (template : String) (context : List (String × List Image))
  | json (status : Nat) (body : List ImageJson)
  | methodNotAllowed (status : Nat)
deriving DecidableEq, Repr

/-- Modelled from the spec: Django's `render(request, template, context)`
returns an HTTP 200 response carrying the template name and the rendering
context. -/
def render (_req : Request) (template : String) (context : List (String × List Image)) :
    Response :=
  Response.html 200 template context

/-- `home` (`app/views.py` lines 8-10): build the context
`{"images": Image.objects.all()}` and render `index.html` with it.  The
store is returned unchanged: the view performs no write. -/
def home (store : Store) (req : Request) : Response × Store :=
  let context := [("images", Image_objects_all store)]
  (render req "index.html" context, store)

/-- `ImageListAPIView.queryset` (`app/views.py` line 14):
`Image.objects.all()`. -/
def ImageListAPIView_queryset (store : Store) : List Image :=
  Image_objects_all store

/-- `ImageListAPIView.serializer_class` (`app/views.py` line 15):
`ImageSerializer`. -/
def ImageListAPIView_serializer_class : Image → ImageJson :=
  ImageSerializer_toJson

/-- Modelled from the spec: the GET handler a `ListAPIView` provides — it
serializes the queryset with the configured serializer and returns the JSON
array with HTTP 200 ("a read-only collection listing endpoint"). -/
def ImageListAPIView_get (store : Store) (_req : Request) : Response × Store :=
  (Response.json 200 ((ImageListAPIView_queryset store).map ImageListAPIView_serializer_class),
   store)

/-- Modelled from the spec: dispatch for `ImageListAPIView.as_view()` — the
view is a read-only collection listing endpoint with "no write support":
only a GET handler is defined, so any other method is rejected with HTTP
405 and the store is untouched. -/
def ImageListAPIView_dispatch (store : Store) (req : Request) : Response × Store :=
  match req.method with
  | Method.GET => ImageListAPIView_get store req
  | _ => (Response.methodNotAllowed 405, store)

/-- The two view handlers named by `app/urls.py`. -/
inductive Handler where
  | home
  | imageListAPIView
deriving DecidableEq, Repr

/-- `urlpatterns` (`app/urls.py` lines 5-16): route `""` to `home` (name
`"home"`) and route `"images/"` to `ImageListAPIView.as_view()` (name
`"images"`). -/
def urlpatterns : List (String × Handler × String) :=
  [("", Handler.home, "home"),
   ("images/", Handler.imageListAPIView, "images")]

/-- Django's URL resolver consumes the leading slash of the request path
before matching route strings. -/
def stripLeadingSlash (p : String) : String :=
  match p.data with
  | List.cons c rest => if c = '/' then String.mk rest else p
  | List.nil => p

/-- Resolve a request path against `urlpatterns`: the first route whose
pattern equals the path (after the leading slash is consumed) wins; an
unmatched path resolves to no handler. -/
def resolve (p : String) : Option Handler :=
  (urlpatterns.find? (fun route => route.1 = stripLeadingSlash p)).map
    (fun route => route.2.1)

/-- Handle one request: resolve the path and run the matched handler on the
current store; an unmatched path is handled by no code in this source. -/
def handle (store : Store) (req : Request) : Option (Response × Store) :=
  match resolve req.path with
  | some Handler.home => some (home store req)
  | some Handler.imageListAPIView => some (ImageListAPIView_dispatch store req)
  | none => none

/-- The store left behind by one request (unmatched paths leave it as is). -/
def stepStore (store : Store) (req : Request) : Store :=
  match handle store req with
  | some (_, store') => store'
  | none => store

/-- Run a finite sequence of requests, threading the store through. -/
def runSeq (store : Store) (reqs : List Request) : Store :=
  reqs.foldl stepStore store

/-- A GET request to one of the two endpoints of this application. -/
def isEndpointGet (req : Request) : Bool :=
  req.method = Method.GET && (req.path = "/" || req.path = "/images/")

/-- The `"images"` entry of the context an HTML response carries (the
collection the home view hands to the template renderer). -/
def htmlContextImages (r : Response) : Option (List Image) :=
  match r with
  | Response.html _ _ context =>
      (context.find? (fun kv => kv.1 = "images")).map (fun kv => kv.2)
  | _ => none

/-- Modelled from the spec: the repository defines `app/views.py` twice
(only the second definition is present under the provided source).  The
first definition holds only the page view `home`; the second holds `home`
and `ImageListAPIView`, and supersedes the first. -/
def viewsDefinitions : List (List Handler) :=
  [[Handler.home], [Handler.home, Handler.imageListAPIView]]

/-- Modelled from the spec: the effective `app/views.py` module is the
second (superseding) definition. -/
def effectiveViewsModule : List Handler :=
  [Handler.home, Handler.imageListAPIView]

/-! ## Helper lemmas -/

theorem stepStore_eq (store : Store) (req : Request) :
    stepStore store req = store := by
  unfold stepStore handle
  cases resolve req.path with
  | none => rfl
  | some h =>
    cases h with
    | home => rfl
    | imageListAPIView =>
      unfold ImageListAPIView_dispatch
      cases req.method <;> rfl

theorem runSeq_id (store : Store) (reqs : List Request) :
    runSeq store reqs = store := by
  induction reqs generalizing store with
  | nil => rfl
  | cons r rs ih =>
    show runSeq (stepStore store r) rs = store
    rw [stepStore_eq]
    exact ih store

theorem resolve_root : resolve "/" = some Handler.home := by decide

theorem resolve_images : resolve "/images/" = some Handler.imageListAPIView := by decide

/-! ## Claim theorems -/

/-- C1: for every state of the backing store, a GET request to `"/"` is
routed to the home view and answered with HTTP 200, and the rendering
context's `"images"` entry is exactly the list of stored Image records —
every record present, none omitted, none duplicated. -/
theorem C1_home_returns_all_images (store : Store) :
    handle store ⟨Method.GET, "/"⟩
      = some (Response.html 200 "index.html" [("images", store)], store) ∧
    htmlContextImages (Response.html 200 "index.html" [("images", store)])
      = some store := by
  constructor
  · rfl
  · rfl

/-- C2: for every state of the backing store, a GET request to
`"/images/"` is routed to `ImageListAPIView` and answered with HTTP 200
and a JSON array whose length equals the number of stored Image records. -/
theorem C2_image_list_length (store : Store) :
    handle store ⟨Method.GET, "/images/"⟩
      = some (Response.json 200 (store.map ImageSerializer_toJson), store) ∧
    (store.map ImageSerializer_toJson).length = store.length := by
  refine ⟨rfl, ?_⟩
  exact List.length_map store ImageSerializer_toJson

/-- C3: both endpoints are read-only — any finite sequence of GET requests
to `"/"` and `"/images/"`, in any order, leaves the stored Image records
exactly as they were. -/
theorem C3_endpoints_read_only (store : Store) (reqs : List Request)
    (h : ∀ r ∈ reqs, isEndpointGet r = true) :
    runSeq store reqs = store :=
  runSeq_id store reqs

/-- C3 witness: a concrete store and a concrete sequence of GET requests
to both endpoints, left unchanged. -/
theorem C3_endpoints_read_only_witness :
    runSeq [⟨7⟩] [⟨Method.GET, "/"⟩, ⟨Method.GET, "/images/"⟩] = [⟨7⟩] :=
  C3_endpoints_read_only [⟨7⟩] [⟨Method.GET, "/"⟩, ⟨Method.GET, "/images/"⟩]
    (by decide)

/-- C4: the home view and `ImageListAPIView` perform the same query — for
every store, the collection the home view hands to the template renderer
equals, as a multiset of records, the queryset `ImageListAPIView` hands to
the serializer. -/
theorem C4_same_query (store : Store) (req : Request) :
    ∃ l, htmlContextImages (home store req).1 = some l ∧
      Multiset.ofList l = Multiset.ofList (ImageListAPIView_queryset store) :=
  ⟨store, rfl, rfl⟩

/-- C5: with zero stored records, both endpoints succeed — `"/"` renders an
empty `"images"` collection and `"/images/"` returns an empty JSON array. -/
theorem C5_empty_store_ok :
    handle [] ⟨Method.GET, "/"⟩
      = some (Response.html 200 "index.html" [("images", [])], []) ∧
    handle [] ⟨Method.GET, "/images/"⟩
      = some (Response.json 200 [], []) := by
  exact ⟨rfl, rfl⟩

/-- C6: the routing table holds exactly the two routes `""` → home and
`"images/"` → `ImageListAPIView`, and a request to any other path matches
no handler in this source. -/
theorem C6_routing_table :
    urlpatterns = [("", Handler.home, "home"),
                   ("images/", Handler.imageListAPIView, "images")] ∧
    resolve "/" = some Handler.home ∧
    resolve "/images/" = some Handler.imageListAPIView ∧
    ∀ p, stripLeadingSlash p ≠ "" → stripLeadingSlash p ≠ "images/" →
      resolve p = none := by
  refine ⟨rfl, by decide, by decide, ?_⟩
  intro p h1 h2
  have h1' : ¬ ("" = stripLeadingSlash p) := fun h => h1 h.symm
  have h2' : ¬ ("images/" = stripLeadingSlash p) := fun h => h2 h.symm
  simp [resolve, urlpatterns, List.find?, h1', h2']

/-- C6 witness: a concrete unrelated path resolves to no handler. -/
theorem C6_routing_table_witness : resolve "/admin/" = none :=
  C6_routing_table.2.2.2 "/admin/" (by decide) (by decide)

/-- C7: for every request reaching it, the home view renders the fetched
records into the one fixed template `"index.html"` under the context key
`"images"`, and does nothing else — the response is exactly that render and
the store is untouched. -/
theorem C7_home_fixed_template (store : Store) (req : Request) :
    home store req
      = (render req "index.html" [("images", Image_objects_all store)], store) :=
  rfl

/-- C8: requests are stateless and deterministic — over one fixed store,
the same request gives the identical result no matter which finite request
histories were handled before. -/
theorem C8_stateless_deterministic (store : Store)
    (hist1 hist2 : List Request) (req : Request) :
    handle (runSeq store hist1) req = handle (runSeq store hist2) req := by
  rw [runSeq_id, runSeq_id]

/-- C9: the repository's source is three thin handlers — the page view of
the first `app/views.py` definition, and the page view plus the list API
view of the second definition, which supersedes the first — and the routes
are wired only to handlers of the effective module. -/
theorem C9_three_handlers_superseded :
    viewsDefinitions.length = 2 ∧
    (viewsDefinitions.map List.length).sum = 3 ∧
    viewsDefinitions = [[Handler.home], effectiveViewsModule] ∧
    effectiveViewsModule = [Handler.home, Handler.imageListAPIView] ∧
    urlpatterns.map (fun route => route.2.1) = effectiveViewsModule := by
  exact ⟨rfl, rfl, rfl, rfl, rfl⟩

/-- C10: `"/images/"` accepts only GET — any other method is rejected with
HTTP 405 (method not allowed) and the stored records are unchanged. -/
theorem C10_images_get_only (store : Store) (m : Method)
    (h : m ≠ Method.GET) :
    handle store ⟨m, "/images/"⟩
      = some (Response.methodNotAllowed 405, store) := by
  cases m with
  | GET => exact absurd rfl h
  | POST => rfl
  | PUT => rfl
  | PATCH => rfl
  | DELETE => rfl

/-- C10 witness: a concrete POST to `"/images/"` over a concrete store is
rejected with 405 and the store survives unchanged. -/
theorem C10_images_get_only_witness :
    handle [⟨3⟩] ⟨Method.POST, "/images/"⟩
      = some (Response.methodNotAllowed 405, [⟨3⟩]) :=
  C10_images_get_only [⟨3⟩] Method.POST (by decide)
